import Mathlib

/-!
Verification of the nomura-home-finance data model (src/app/models.py) and
its budget/transaction consistency model.

Monetary values are fixed-point decimals with 2 fractional digits in the
source (`Decimal`, `decimal_places=2`); they are embedded as integer cents
(`Money := Int`).  Datetimes are embedded as calendar dates, since the only
field of a datetime the model ever inspects is its (month, year) pair.

Entity structures and create/update payload structures mirror the SQLModel
classes of src/app/models.py field for field.  The service layer (the
"Budget Consistency Engine" and the store operations of the spec) is not
part of src/; those operations are modelled from the spec, each marked
`Modelled from the spec:` in its doc comment.
-/

namespace App

/-- Monetary amount in cents (source: `Decimal` with `decimal_places=2`). -/
abbrev Money := Int

/-- Embeds `datetime`; only the calendar fields are ever inspected. -/
structure DateTime where
  year : Nat
  month : Nat
  day : Nat
  deriving DecidableEq, Repr

/-- Source: `class UserRole(str, Enum)`. -/
inductive UserRole where
  | admin
  | user
  deriving DecidableEq, Repr

/-- Source: `class TransactionType(str, Enum)`. -/
inductive TransactionType where
  | income
  | expense
  deriving DecidableEq, Repr

/-- Source: `class CategoryType(str, Enum)`. -/
inductive CategoryType where
  | income
  | expense
  deriving DecidableEq, Repr

/-- Source: `class User(SQLModel, table=True)` (models.py lines 35-52). -/
structure User where
  id : Option Nat
  username : String
  email : String
  full_name : String
  password_hash : String
  role : UserRole
  is_active : Bool
  created_at : DateTime
  updated_at : DateTime
  deriving DecidableEq, Repr

/-- Source: `class Category(SQLModel, table=True)` (models.py lines 55-70). -/
structure Category where
  id : Option Nat
  name : String
  description : Option String
  type : CategoryType
  color : Option String
  icon : Option String
  is_active : Bool
  created_at : DateTime
  created_by : Option Nat
  deriving DecidableEq, Repr

/-- Source: `class Wallet(SQLModel, table=True)` (models.py lines 73-86). -/
structure Wallet where
  id : Option Nat
  user_id : Nat
  name : String
  balance : Money
  is_primary : Bool
  created_at : DateTime
  updated_at : DateTime
  deriving DecidableEq, Repr

/-- Source: `class Budget(SQLModel, table=True)` (models.py lines 89-107). -/
structure Budget where
  id : Option Nat
  user_id : Nat
  category_id : Nat
  name : String
  allocated_amount : Money
  spent_amount : Money
  remaining_amount : Money
  month : Nat
  year : Nat
  is_active : Bool
  created_at : DateTime
  updated_at : DateTime
  deriving DecidableEq, Repr

/-- Source: `class Transaction(SQLModel, table=True)` (models.py lines 110-128). -/
structure Transaction where
  id : Option Nat
  user_id : Nat
  category_id : Nat
  wallet_id : Nat
  type : TransactionType
  amount : Money
  description : String
  notes : Option String
  transaction_date : DateTime
  created_at : DateTime
  updated_at : DateTime
  deriving DecidableEq, Repr

/-- Source: `class UserCreate(SQLModel, table=False)` (lines 184-189). -/
structure UserCreate where
  username : String
  email : String
  full_name : String
  password : String
  role : UserRole
  deriving DecidableEq, Repr

/-- Source: `class UserUpdate(SQLModel, table=False)` (lines 192-197):
every field `Optional[...] = None`; `none` encodes an absent field. -/
structure UserUpdate where
  username : Option String
  email : Option String
  full_name : Option String
  role : Option UserRole
  is_active : Option Bool
  deriving DecidableEq, Repr

/-- Source: `class CategoryCreate(SQLModel, table=False)` (lines 205-210). -/
structure CategoryCreate where
  name : String
  description : Option String
  type : CategoryType
  color : Option String
  icon : Option String
  deriving DecidableEq, Repr

/-- Source: `class CategoryUpdate(SQLModel, table=False)` (lines 213-218);
`none` encodes an absent field; for the nullable stored columns
(`description`, `color`, `icon`) the provided value is itself an Option,
matching the payload's tracking of explicitly provided fields (unset vs
null-set). Note the payload has no `type` field. -/
structure CategoryUpdate where
  name : Option String
  description : Option (Option String)
  color : Option (Option String)
  icon : Option (Option String)
  is_active : Option Bool
  deriving DecidableEq, Repr

/-- Source: `class WalletCreate(SQLModel, table=False)` (lines 221-224). -/
structure WalletCreate where
  name : String
  balance : Money
  is_primary : Bool
  deriving DecidableEq, Repr

/-- Source: `class WalletUpdate(SQLModel, table=False)` (lines 227-230). -/
structure WalletUpdate where
  name : Option String
  balance : Option Money
  is_primary : Option Bool
  deriving DecidableEq, Repr

/-- Source: `class BudgetCreate(SQLModel, table=False)` (lines 233-238):
no `spent_amount` / `remaining_amount` field exists on the payload. -/
structure BudgetCreate where
  category_id : Nat
  name : String
  allocated_amount : Money
  month : Nat
  year : Nat
  deriving DecidableEq, Repr

/-- Source: `class BudgetUpdate(SQLModel, table=False)` (lines 241-244):
only `name`, `allocated_amount`, `is_active`; no money field other than
`allocated_amount`, and no scope field (user/category/month/year). -/
structure BudgetUpdate where
  name : Option String
  allocated_amount : Option Money
  is_active : Option Bool
  deriving DecidableEq, Repr

/-- Source: `class TransactionCreate(SQLModel, table=False)` (lines 247-254). -/
structure TransactionCreate where
  category_id : Nat
  wallet_id : Nat
  type : TransactionType
  amount : Money
  description : String
  notes : Option String
  transaction_date : Option DateTime
  deriving DecidableEq, Repr

/-- Source: `class TransactionUpdate(SQLModel, table=False)` (lines 257-263);
`none` encodes an absent field; the nullable stored column `notes` carries
an Option value when provided (unset vs null-set).  Note the payload has no
`type` field. -/
structure TransactionUpdate where
  category_id : Option Nat
  wallet_id : Option Nat
  amount : Option Money
  description : Option String
  notes : Option (Option String)
  transaction_date : Option DateTime
  deriving DecidableEq, Repr

/- Validation predicates: each is the direct transcription of the `Field`
constraints declared in models.py. -/

/-- Character class `[a-zA-Z0-9_.+-]` of the local part of the
`User.email` regex (models.py line 40). -/
def isLocalChar (c : Char) : Bool :=
  c.isAlpha || c.isDigit || c = '_' || c = '.' || c = '+' || c = '-'

/-- Character class `[a-zA-Z0-9-]` of the domain label of the regex. -/
def isDomainChar (c : Char) : Bool :=
  c.isAlpha || c.isDigit || c = '-'

/-- Character class `[a-zA-Z0-9-.]` of the domain tail of the regex. -/
def isTailChar (c : Char) : Bool :=
  c.isAlpha || c.isDigit || c = '-' || c = '.'

/-- The regex `^[a-zA-Z0-9_.+-]+@[a-zA-Z0-9-]+\.[a-zA-Z0-9-.]+$` declared on
`User.email` (models.py line 40): a nonempty local part over its class, one
`@`, a nonempty dot-free domain label over its class, a literal dot, and a
nonempty tail over its class.  Because none of the three classes contains
`@`, and the label class contains no dot, the regex matches exactly when
the text before the first `@` is the local part and the label ends at the
first dot after the `@`; the checker transcribes that. -/
def emailOk (s : String) : Bool :=
  let loc := s.data.takeWhile (fun c => !(c = '@'))
  match s.data.dropWhile (fun c => !(c = '@')) with
  | '@' :: dom =>
    (match dom.dropWhile (fun c => !(c = '.')) with
     | '.' :: tail =>
       decide (loc ≠ []) && loc.all isLocalChar &&
         decide ((dom.takeWhile fun c => !(c = '.')) ≠ []) &&
         (dom.takeWhile fun c => !(c = '.')).all isDomainChar &&
         decide (tail ≠ []) && tail.all isTailChar
     | _ => false)
  | _ => false

/-- Declared field constraints of the persisted `User` row (lines 38-46):
`username` unique max 50, `email` max 255 with the regex, `full_name`
max 100, `password_hash` max 255. -/
def userRowValid (u : User) : Bool :=
  decide (u.username.length ≤ 50) &&
    decide (u.email.length ≤ 255) && emailOk u.email &&
    decide (u.full_name.length ≤ 100) &&
    decide (u.password_hash.length ≤ 255)

/-- Declared field constraints of `UserCreate` (lines 184-189): length
ceilings and `password` min_length 8.  No email-format constraint is
declared on this payload. -/
def userCreateValid (p : UserCreate) : Bool :=
  decide (p.username.length ≤ 50) &&
    decide (p.email.length ≤ 255) &&
    decide (p.full_name.length ≤ 100) &&
    decide (8 ≤ p.password.length)

/-- Declared field constraints of `TransactionCreate` (lines 247-254):
`description` max 500, `notes` max 1000.  `amount` carries only
`decimal_places=2` (inherent in the cents representation); no positivity
bound is declared. -/
def transactionCreateValid (p : TransactionCreate) : Bool :=
  decide (p.description.length ≤ 500) &&
    (match p.notes with
     | some n => decide (n.length ≤ 1000)
     | none => true)

/-- Declared field constraints of `BudgetCreate` (lines 233-238):
`name` max 100, `month` in [1,12], `year` ≥ 2000. -/
def budgetCreateValid (p : BudgetCreate) : Bool :=
  decide (p.name.length ≤ 100) &&
    decide (1 ≤ p.month) && decide (p.month ≤ 12) &&
    decide (2000 ≤ p.year)

/-- Source: `class InvestmentType(str, Enum)`. -/
inductive InvestmentType where
  | stock
  | bond
  | mutual_fund
  | cryptocurrency
  | real_estate
  | gold
  | other
  deriving DecidableEq, Repr

/-- Rate in ten-thousandths (source: `Decimal` with `decimal_places=4`). -/
abbrev Rate := Int

/-- Source: `class Investment(SQLModel, table=True)` (lines 131-150). -/
structure Investment where
  id : Option Nat
  user_id : Nat
  name : String
  type : InvestmentType
  initial_amount : Money
  current_value : Money
  monthly_contribution : Money
  expected_return_rate : Option Rate
  description : Option String
  start_date : DateTime
  is_active : Bool
  created_at : DateTime
  updated_at : DateTime
  deriving DecidableEq, Repr

/-- Source: `class InvestmentUpdate(SQLModel, table=False)` (lines 277-283);
`none` encodes an absent field, and the nullable stored columns
(`expected_return_rate`, `description`) carry an Option value when
provided. -/
structure InvestmentUpdate where
  name : Option String
  current_value : Option Money
  monthly_contribution : Option Money
  expected_return_rate : Option (Option Rate)
  description : Option (Option String)
  is_active : Option Bool
  deriving DecidableEq, Repr

/- Partial-update application.  Modelled from the spec: the service layer
applying an Update payload is not part of src/; §3/§4.1 say "mutated via
partial Update payloads (only present fields change)", absent fields never
overwrite stored values, and an unset field is distinct from a field
explicitly set to null.  The field set of each payload is taken verbatim
from models.py. -/

/-- Modelled from the spec: apply a `UserUpdate` (partial-update
semantics); touches `updated_at` as the row declares it. -/
def applyUserUpdate (u : User) (p : UserUpdate) (now : DateTime) : User :=
  { u with
    username := p.username.getD u.username
    email := p.email.getD u.email
    full_name := p.full_name.getD u.full_name
    role := p.role.getD u.role
    is_active := p.is_active.getD u.is_active
    updated_at := now }

/-- Modelled from the spec: apply a `CategoryUpdate` (partial-update
semantics).  The payload has no `type` field (models.py lines 213-218). -/
def applyCategoryUpdate (c : Category) (p : CategoryUpdate) : Category :=
  { c with
    name := p.name.getD c.name
    description := p.description.getD c.description
    color := p.color.getD c.color
    icon := p.icon.getD c.icon
    is_active := p.is_active.getD c.is_active }

/-- Modelled from the spec: apply a `WalletUpdate` (partial-update
semantics). -/
def applyWalletUpdate (w : Wallet) (p : WalletUpdate) (now : DateTime) : Wallet :=
  { w with
    name := p.name.getD w.name
    balance := p.balance.getD w.balance
    is_primary := p.is_primary.getD w.is_primary
    updated_at := now }

/-- Modelled from the spec: apply a `BudgetUpdate` (partial-update
semantics).  `allocated_amount` is the only money field the payload can
carry (models.py lines 241-244); when it changes, `remaining_amount` is
recomputed as `allocated_amount − spent_amount` (§4.2); `spent_amount` is
never written. -/
def applyBudgetUpdate (b : Budget) (p : BudgetUpdate) (now : DateTime) : Budget :=
  let b1 := { b with
    name := p.name.getD b.name
    is_active := p.is_active.getD b.is_active
    updated_at := now }
  match p.allocated_amount with
  | none => b1
  | some a => { b1 with allocated_amount := a, remaining_amount := a - b.spent_amount }

/-- Modelled from the spec: apply a `TransactionUpdate` (partial-update
semantics).  The payload has no `type` field (models.py lines 257-263). -/
def applyTransactionUpdate (t : Transaction) (p : TransactionUpdate) (now : DateTime) :
    Transaction :=
  { t with
    category_id := p.category_id.getD t.category_id
    wallet_id := p.wallet_id.getD t.wallet_id
    amount := p.amount.getD t.amount
    description := p.description.getD t.description
    notes := p.notes.getD t.notes
    transaction_date := p.transaction_date.getD t.transaction_date
    updated_at := now }

/-- Modelled from the spec: apply an `InvestmentUpdate` (partial-update
semantics). -/
def applyInvestmentUpdate (v : Investment) (p : InvestmentUpdate) (now : DateTime) :
    Investment :=
  { v with
    name := p.name.getD v.name
    current_value := p.current_value.getD v.current_value
    monthly_contribution := p.monthly_contribution.getD v.monthly_contribution
    expected_return_rate := p.expected_return_rate.getD v.expected_return_rate
    description := p.description.getD v.description
    is_active := p.is_active.getD v.is_active
    updated_at := now }

/- Budget Consistency Engine.  Modelled from the spec (§4.2): the engine
itself is not part of src/; src/ contributes the field model it reads and
writes. -/

/-- Signed effect of a Transaction on its Wallet's balance: `± amount by
type` (§3): income adds, expense subtracts. -/
def txWalletDelta (t : Transaction) : Money :=
  match t.type with
  | .income => t.amount
  | .expense => -t.amount

/-- Modelled from the spec (§4.2): a Budget matches a Transaction when its
(user, category) pair and its (month, year) scope equal the transaction's
user, category and transaction_date month/year, and the Budget is active. -/
def budgetMatches (b : Budget) (t : Transaction) : Bool :=
  decide (b.user_id = t.user_id) && decide (b.category_id = t.category_id) &&
    decide (b.month = t.transaction_date.month) &&
    decide (b.year = t.transaction_date.year) && b.is_active

/-- Modelled from the spec (§4.2): post (`sign = 1`) or reverse
(`sign = -1`) an expense Transaction on a matching Budget:
`spent_amount` is adjusted and `remaining_amount` recomputed as
`allocated_amount − spent_amount`; income Transactions and non-matching
Budgets are untouched. -/
def applyTxToBudget (sign : Int) (t : Transaction) (b : Budget) : Budget :=
  if t.type = .expense ∧ budgetMatches b t = true then
    let spent := b.spent_amount + sign * t.amount
    { b with spent_amount := spent, remaining_amount := b.allocated_amount - spent }
  else b

/-- Modelled from the spec (§3): post (`sign = 1`) or reverse
(`sign = -1`) a Transaction on its owning Wallet's balance. -/
def applyTxToWallet (sign : Int) (t : Transaction) (w : Wallet) : Wallet :=
  if w.id = some t.wallet_id then
    { w with balance := w.balance + sign * txWalletDelta t }
  else w

/-- The Entity Store (§2): the persisted rows the claims are about. -/
structure Store where
  users : List User
  categories : List Category
  wallets : List Wallet
  budgets : List Budget
  transactions : List Transaction
  deriving DecidableEq, Repr

/-- The empty store. -/
def Store.empty : Store := ⟨[], [], [], [], []⟩

/-- Error kinds of §7 that the modelled operations can surface. -/
inductive ServiceError where
  | validation
  | notFound
  | conflict
  deriving DecidableEq, Repr

/-- Row built from a `UserCreate` payload (field sources: models.py
lines 35-46 and 184-189; `password_hash` is produced by the external
hashing collaborator). -/
def mkUserFromCreate (nid : Nat) (now : DateTime) (p : UserCreate) (pwHash : String) : User :=
  { id := some nid, username := p.username, email := p.email, full_name := p.full_name,
    password_hash := pwHash, role := p.role, is_active := true,
    created_at := now, updated_at := now }

/-- Row built from a `CategoryCreate` payload (models.py lines 55-66 and
205-210). -/
def mkCategoryFromCreate (nid : Nat) (now : DateTime) (p : CategoryCreate)
    (creator : Option Nat) : Category :=
  { id := some nid, name := p.name, description := p.description, type := p.type,
    color := p.color, icon := p.icon, is_active := true,
    created_at := now, created_by := creator }

/-- Row built from a `WalletCreate` payload (models.py lines 73-82 and
221-224). -/
def mkWalletFromCreate (uid nid : Nat) (now : DateTime) (p : WalletCreate) : Wallet :=
  { id := some nid, user_id := uid, name := p.name, balance := p.balance,
    is_primary := p.is_primary, created_at := now, updated_at := now }

/-- Row built from a `BudgetCreate` payload (models.py lines 89-103 and
233-238): the payload carries no `spent_amount`/`remaining_amount`;
`spent_amount` starts at 0 and `remaining_amount` is the recomputed
`allocated_amount − spent_amount` (§4.2 derived-field rule). -/
def mkBudgetFromCreate (uid nid : Nat) (now : DateTime) (p : BudgetCreate) : Budget :=
  { id := some nid, user_id := uid, category_id := p.category_id, name := p.name,
    allocated_amount := p.allocated_amount, spent_amount := 0,
    remaining_amount := p.allocated_amount - 0, month := p.month, year := p.year,
    is_active := true, created_at := now, updated_at := now }

/-- Row built from a `TransactionCreate` payload (models.py lines 110-123
and 247-254): an absent `transaction_date` defaults to now, as the row's
`default_factory` declares. -/
def mkTransactionFromCreate (uid nid : Nat) (now : DateTime) (p : TransactionCreate) :
    Transaction :=
  { id := some nid, user_id := uid, category_id := p.category_id,
    wallet_id := p.wallet_id, type := p.type, amount := p.amount,
    description := p.description, notes := p.notes,
    transaction_date := p.transaction_date.getD now,
    created_at := now, updated_at := now }

/-- Modelled from the spec: user creation persists the row only when the
payload constraints (models.py lines 184-189) and the persisted row's
declared constraints - including the email regex of line 40 - hold;
otherwise a ValidationError is surfaced (§4.1, §7). -/
def createUser (s : Store) (nid : Nat) (now : DateTime) (p : UserCreate) (pwHash : String) :
    Except ServiceError Store :=
  if userCreateValid p && userRowValid (mkUserFromCreate nid now p pwHash) then
    .ok { s with users := mkUserFromCreate nid now p pwHash :: s.users }
  else .error .validation

/-- Modelled from the spec: category creation persists the row. -/
def createCategory (s : Store) (nid : Nat) (now : DateTime) (p : CategoryCreate)
    (creator : Option Nat) : Store :=
  { s with categories := mkCategoryFromCreate nid now p creator :: s.categories }

/-- Modelled from the spec (§3): wallet creation persists the row; when the
new wallet is primary, every other wallet of the same user is demoted so
that at most one wallet per user is primary (invariant enforced at write
time). -/
def createWallet (s : Store) (uid nid : Nat) (now : DateTime) (p : WalletCreate) : Store :=
  if p.is_primary then
    { s with wallets :=
        mkWalletFromCreate uid nid now p :: s.wallets.map (fun v =>
          if v.user_id = uid then { v with is_primary := false } else v) }
  else { s with wallets := mkWalletFromCreate uid nid now p :: s.wallets }

/-- Modelled from the spec (§3): wallet update applies the partial payload
to the addressed wallet; when the payload sets `is_primary = true`, every
other wallet of the same user is demoted (invariant enforced at write
time).  A missing id leaves the store unchanged. -/
def updateWallet (s : Store) (wid : Nat) (now : DateTime) (p : WalletUpdate) : Store :=
  match s.wallets.find? (fun w => decide (w.id = some wid)) with
  | none => s
  | some w0 =>
    if p.is_primary = some true then
      { s with wallets := s.wallets.map (fun v =>
          if v.id = some wid then applyWalletUpdate v p now
          else if v.user_id = w0.user_id then { v with is_primary := false } else v) }
    else
      { s with wallets := s.wallets.map (fun v =>
          if v.id = some wid then applyWalletUpdate v p now else v) }

/-- Bool test that a Budget occupies the scope (uid, cid, m, y). -/
def budgetScopeEq (b : Budget) (uid cid m y : Nat) : Bool :=
  decide (b.user_id = uid) && decide (b.category_id = cid) &&
    decide (b.month = m) && decide (b.year = y)

/-- Modelled from the spec (§6, §7): budget creation is rejected with a
ConflictError when a Budget with the same (user, category, month, year)
tuple already exists; otherwise the row built from the payload is
persisted. -/
def createBudget (s : Store) (uid nid : Nat) (now : DateTime) (p : BudgetCreate) :
    Except ServiceError Store :=
  if s.budgets.any (fun b => budgetScopeEq b uid p.category_id p.month p.year) then
    .error .conflict
  else
    .ok { s with budgets := mkBudgetFromCreate uid nid now p :: s.budgets }

/-- Modelled from the spec: budget update applies the partial payload to
the addressed budget. -/
def updateBudget (s : Store) (bid : Nat) (now : DateTime) (p : BudgetUpdate) : Store :=
  { s with budgets := s.budgets.map (fun b =>
      if b.id = some bid then applyBudgetUpdate b p now else b) }

/-- Modelled from the spec (§4.2, §5): transaction creation persists the
row, posts it to the owning Wallet's balance, and posts it to the matching
Budget (if any) as one atomic step. -/
def createTransaction (s : Store) (t : Transaction) : Store :=
  { s with
    transactions := t :: s.transactions
    wallets := s.wallets.map (applyTxToWallet 1 t)
    budgets := s.budgets.map (applyTxToBudget 1 t) }

/-- Modelled from the spec (§4.2): transaction deletion reverses the
effect on the Wallet balance and on the matching Budget (if any) and
removes the row.  A missing id leaves the store unchanged. -/
def deleteTransaction (s : Store) (tid : Nat) : Store :=
  match s.transactions.find? (fun t => decide (t.id = some tid)) with
  | none => s
  | some t =>
    { s with
      transactions := s.transactions.filter (fun u => !decide (u.id = some tid))
      wallets := s.wallets.map (applyTxToWallet (-1) t)
      budgets := s.budgets.map (applyTxToBudget (-1) t) }

/-- Modelled from the spec (§4.2): transaction update reverses the old
row's effect and applies the updated row's effect, atomically as a single
logical step.  A missing id leaves the store unchanged. -/
def updateTransaction (s : Store) (tid : Nat) (now : DateTime) (p : TransactionUpdate) :
    Store :=
  match s.transactions.find? (fun t => decide (t.id = some tid)) with
  | none => s
  | some t => createTransaction (deleteTransaction s tid) (applyTransactionUpdate t p now)

/-- The reachable states of the Entity Store: every state produced from
the empty store by the modelled operations.  Create operations receive a
fresh row id, as the store's primary-key generation guarantees. -/
inductive Reachable : Store → Prop where
  | empty : Reachable Store.empty
  | user_create {s : Store} {nid : Nat} {now : DateTime} {p : UserCreate} {pwHash : String}
      {s2 : Store} : Reachable s → createUser s nid now p pwHash = .ok s2 → Reachable s2
  | category_create {s : Store} {nid : Nat} {now : DateTime} {p : CategoryCreate}
      {creator : Option Nat} : Reachable s → Reachable (createCategory s nid now p creator)
  | wallet_create {s : Store} {uid nid : Nat} {now : DateTime} {p : WalletCreate} :
      Reachable s → (∀ w ∈ s.wallets, w.id ≠ some nid) →
      Reachable (createWallet s uid nid now p)
  | wallet_update {s : Store} {wid : Nat} {now : DateTime} {p : WalletUpdate} :
      Reachable s → Reachable (updateWallet s wid now p)
  | budget_create {s : Store} {uid nid : Nat} {now : DateTime} {p : BudgetCreate}
      {s2 : Store} : Reachable s → createBudget s uid nid now p = .ok s2 → Reachable s2
  | budget_update {s : Store} {bid : Nat} {now : DateTime} {p : BudgetUpdate} :
      Reachable s → Reachable (updateBudget s bid now p)
  | tx_create {s : Store} {uid nid : Nat} {now : DateTime} {p : TransactionCreate} :
      Reachable s → Reachable (createTransaction s (mkTransactionFromCreate uid nid now p))
  | tx_update {s : Store} {tid : Nat} {now : DateTime} {p : TransactionUpdate} :
      Reachable s → Reachable (updateTransaction s tid now p)
  | tx_delete {s : Store} {tid : Nat} :
      Reachable s → Reachable (deleteTransaction s tid)

/- General list helpers. -/

/-- In a list whose keys are pairwise distinct, at most one element carries
any given key. -/
lemma countP_key_le_one {α β : Type} [DecidableEq β] (key : α → β) (l : List α)
    (hp : l.Pairwise (fun a b => key a ≠ key b)) (k : β) :
    l.countP (fun a => decide (key a = k)) ≤ 1 := by
  induction l with
  | nil => simp
  | cons x xs ih =>
    rcases List.pairwise_cons.mp hp with ⟨hx, hxs⟩
    by_cases h : key x = k
    · rw [List.countP_cons_of_pos _ _ (by simpa using h)]
      have hz : xs.countP (fun a => decide (key a = k)) = 0 := by
        rw [List.countP_eq_zero]
        intro a ha
        simp only [decide_eq_true_eq]
        intro hk
        exact hx a ha (h.trans hk.symm)
      omega
    · rw [List.countP_cons_of_neg _ _ (by simpa using h)]
      exact ih hxs

/-- In a list whose keys are pairwise distinct, two members with equal keys
are equal. -/
lemma eq_of_pairwise_key {α β : Type} (key : α → β) {l : List α}
    (hp : l.Pairwise (fun a b => key a ≠ key b)) {a b : α}
    (ha : a ∈ l) (hb : b ∈ l) (h : key a = key b) : a = b := by
  induction l with
  | nil => cases ha
  | cons x xs ih =>
    rcases List.pairwise_cons.mp hp with ⟨hx, hxs⟩
    rcases List.mem_cons.mp ha with rfl | ha2
    · rcases List.mem_cons.mp hb with rfl | hb2
      · rfl
      · exact absurd h (hx b hb2)
    · rcases List.mem_cons.mp hb with rfl | hb2
      · exact absurd h.symm (hx a ha2)
      · exact ih hxs ha2 hb2

/- The Budget arithmetic invariant (§8 line 1). -/

/-- `remaining_amount = allocated_amount − spent_amount`. -/
def budgetInv (b : Budget) : Prop :=
  b.remaining_amount = b.allocated_amount - b.spent_amount

lemma budgetInv_mkBudgetFromCreate (uid nid : Nat) (now : DateTime) (p : BudgetCreate) :
    budgetInv (mkBudgetFromCreate uid nid now p) := by
  simp [budgetInv, mkBudgetFromCreate]

lemma budgetInv_applyTxToBudget (sign : Int) (t : Transaction) {b : Budget}
    (h : budgetInv b) : budgetInv (applyTxToBudget sign t b) := by
  unfold applyTxToBudget
  split
  · simp [budgetInv]
  · exact h

lemma budgetInv_applyBudgetUpdate {b : Budget} (p : BudgetUpdate) (now : DateTime)
    (h : budgetInv b) : budgetInv (applyBudgetUpdate b p now) := by
  cases hp : p.allocated_amount with
  | none => simpa [applyBudgetUpdate, hp, budgetInv] using h
  | some a => simp [applyBudgetUpdate, hp, budgetInv]

lemma budgetInv_map_applyTx {l : List Budget} (sign : Int) (t : Transaction)
    (h : ∀ b ∈ l, budgetInv b) :
    ∀ b ∈ l.map (applyTxToBudget sign t), budgetInv b := by
  intro b hb
  rcases List.mem_map.mp hb with ⟨a, ha, rfl⟩
  exact budgetInv_applyTxToBudget _ _ (h a ha)

/- Shape lemmas for the `Except`-valued operations. -/

lemma createUser_ok {s : Store} {nid : Nat} {now : DateTime} {p : UserCreate}
    {pwHash : String} {s2 : Store} (h : createUser s nid now p pwHash = .ok s2) :
    s2 = { s with users := mkUserFromCreate nid now p pwHash :: s.users } ∧
      userCreateValid p = true ∧
      userRowValid (mkUserFromCreate nid now p pwHash) = true := by
  unfold createUser at h
  split at h
  · next hv =>
    cases h
    have hv2 : userCreateValid p = true ∧
        userRowValid (mkUserFromCreate nid now p pwHash) = true := by simpa using hv
    exact ⟨rfl, hv2.1, hv2.2⟩
  · cases h

lemma createBudget_ok {s : Store} {uid nid : Nat} {now : DateTime} {p : BudgetCreate}
    {s2 : Store} (h : createBudget s uid nid now p = .ok s2) :
    s2 = { s with budgets := mkBudgetFromCreate uid nid now p :: s.budgets } ∧
      s.budgets.any (fun b => budgetScopeEq b uid p.category_id p.month p.year) = false := by
  unfold createBudget at h
  split at h
  · cases h
  · next hany =>
    cases h
    exact ⟨rfl, Bool.eq_false_iff.mpr hany⟩

/- C1 helper: every reachable state satisfies the Budget arithmetic
invariant. -/

lemma deleteTransaction_budgetInv {s : Store} (tid : Nat)
    (h : ∀ b ∈ s.budgets, budgetInv b) :
    ∀ b ∈ (deleteTransaction s tid).budgets, budgetInv b := by
  unfold deleteTransaction
  split
  · exact h
  · exact budgetInv_map_applyTx _ _ h

lemma createTransaction_budgetInv {s : Store} (t : Transaction)
    (h : ∀ b ∈ s.budgets, budgetInv b) :
    ∀ b ∈ (createTransaction s t).budgets, budgetInv b :=
  budgetInv_map_applyTx _ _ h

lemma reachable_budgetInv {s : Store} (hr : Reachable s) :
    ∀ b ∈ s.budgets, budgetInv b := by
  induction hr with
  | empty => intro b hb; cases hb
  | user_create _ heq ih =>
    obtain ⟨rfl, -, -⟩ := createUser_ok heq
    exact ih
  | category_create _ ih => exact ih
  | wallet_create _ _ ih =>
    intro b hb
    refine ih b ?_
    unfold createWallet at hb
    split at hb <;> exact hb
  | wallet_update _ ih =>
    intro b hb
    refine ih b ?_
    unfold updateWallet at hb
    split at hb
    · exact hb
    · split at hb <;> exact hb
  | budget_create _ heq ih =>
    obtain ⟨rfl, -⟩ := createBudget_ok heq
    intro b hb
    rcases List.mem_cons.mp hb with rfl | hb2
    · exact budgetInv_mkBudgetFromCreate ..
    · exact ih b hb2
  | budget_update _ ih =>
    intro b hb
    rcases List.mem_map.mp hb with ⟨a, ha, rfl⟩
    split
    · exact budgetInv_applyBudgetUpdate _ _ (ih a ha)
    · exact ih a ha
  | tx_create _ ih => exact createTransaction_budgetInv _ ih
  | tx_update _ ih =>
    unfold updateTransaction
    split
    · exact ih
    · exact createTransaction_budgetInv _ (deleteTransaction_budgetInv _ ih)
  | tx_delete _ ih => exact deleteTransaction_budgetInv _ ih

/- C4 helper: the (user, category, month, year) scopes of the stored
Budgets are pairwise distinct at every reachable state. -/

/-- The (user_id, category_id, month, year) tuple of a Budget. -/
def budgetScope (b : Budget) : Nat × Nat × Nat × Nat :=
  (b.user_id, b.category_id, b.month, b.year)

/-- Scopes of the stored budgets are pairwise distinct. -/
def scopesOk (l : List Budget) : Prop :=
  l.Pairwise fun a b => budgetScope a ≠ budgetScope b

lemma budgetScope_applyTxToBudget (sign : Int) (t : Transaction) (b : Budget) :
    budgetScope (applyTxToBudget sign t b) = budgetScope b := by
  unfold applyTxToBudget
  split <;> rfl

lemma budgetScope_applyBudgetUpdate (b : Budget) (p : BudgetUpdate) (now : DateTime) :
    budgetScope (applyBudgetUpdate b p now) = budgetScope b := by
  cases hp : p.allocated_amount <;> simp [applyBudgetUpdate, hp, budgetScope]

lemma scopesOk_map {l : List Budget} {f : Budget → Budget}
    (hf : ∀ b, budgetScope (f b) = budgetScope b) (h : scopesOk l) :
    scopesOk (l.map f) := by
  rw [scopesOk, List.pairwise_map]
  exact h.imp fun hab => by simpa [hf] using hab

lemma scopesOk_map_applyTx {l : List Budget} (sign : Int) (t : Transaction)
    (h : scopesOk l) : scopesOk (l.map (applyTxToBudget sign t)) :=
  scopesOk_map (budgetScope_applyTxToBudget sign t) h

lemma deleteTransaction_scopesOk {s : Store} (tid : Nat)
    (h : scopesOk s.budgets) : scopesOk (deleteTransaction s tid).budgets := by
  unfold deleteTransaction
  split
  · exact h
  · exact scopesOk_map_applyTx _ _ h

lemma reachable_scopesOk {s : Store} (hr : Reachable s) : scopesOk s.budgets := by
  induction hr with
  | empty => exact List.Pairwise.nil
  | user_create _ heq ih =>
    obtain ⟨rfl, -, -⟩ := createUser_ok heq
    exact ih
  | category_create _ ih => exact ih
  | wallet_create _ _ ih =>
    unfold createWallet
    split <;> exact ih
  | wallet_update _ ih =>
    unfold updateWallet
    split
    · exact ih
    · split <;> exact ih
  | budget_create _ heq ih =>
    obtain ⟨rfl, hany⟩ := createBudget_ok heq
    refine List.pairwise_cons.mpr ⟨?_, ih⟩
    intro b hb heqscope
    have hfalse := (List.any_eq_false.mp hany) b hb
    apply hfalse
    have hcomp : budgetScope (mkBudgetFromCreate _ _ _ _) = budgetScope b := heqscope
    simp only [budgetScope, mkBudgetFromCreate, Prod.mk.injEq] at hcomp
    simp [budgetScopeEq, hcomp.1.symm, hcomp.2.1.symm, hcomp.2.2.1.symm, hcomp.2.2.2.symm]
  | budget_update _ ih =>
    refine scopesOk_map ?_ ih
    intro b
    split
    · exact budgetScope_applyBudgetUpdate ..
    · rfl
  | tx_create _ ih => exact scopesOk_map_applyTx _ _ ih
  | tx_update _ ih =>
    unfold updateTransaction
    split
    · exact ih
    · exact scopesOk_map_applyTx _ _ (deleteTransaction_scopesOk _ ih)
  | tx_delete _ ih => exact deleteTransaction_scopesOk _ ih

/- C8 helper: every persisted User's email matches the declared regex at
every reachable state. -/

lemma emailOk_of_userRowValid {u : User} (h : userRowValid u = true) :
    emailOk u.email = true := by
  unfold userRowValid at h
  simp only [Bool.and_eq_true] at h
  exact h.1.1.2

lemma reachable_emailOk {s : Store} (hr : Reachable s) :
    ∀ u ∈ s.users, emailOk u.email = true := by
  induction hr with
  | empty => intro u hu; cases hu
  | user_create _ heq ih =>
    obtain ⟨rfl, -, hrow⟩ := createUser_ok heq
    intro u hu
    rcases List.mem_cons.mp hu with rfl | hu2
    · exact emailOk_of_userRowValid hrow
    · exact ih u hu2
  | category_create _ ih => exact ih
  | wallet_create _ _ ih =>
    intro u hu
    refine ih u ?_
    unfold createWallet at hu
    split at hu <;> exact hu
  | wallet_update _ ih =>
    intro u hu
    refine ih u ?_
    unfold updateWallet at hu
    split at hu
    · exact hu
    · split at hu <;> exact hu
  | budget_create _ heq ih =>
    obtain ⟨rfl, -⟩ := createBudget_ok heq
    exact ih
  | budget_update _ ih => exact ih
  | tx_create _ ih => exact ih
  | tx_update _ ih =>
    intro u hu
    refine ih u ?_
    unfold updateTransaction at hu
    split at hu
    · exact hu
    · unfold deleteTransaction at hu
      split at hu <;> exact hu
  | tx_delete _ ih =>
    intro u hu
    refine ih u ?_
    unfold deleteTransaction at hu
    split at hu <;> exact hu

/- C6 helpers: wallet row ids are pairwise distinct, and each user owns at
most one primary wallet, at every reachable state. -/

/-- The countP predicate "is a primary wallet of user `uid`". -/
def walletPrimaryPred (uid : Nat) (w : Wallet) : Bool :=
  decide (w.user_id = uid) && w.is_primary

/-- The wallet-list part of the reachability invariant: distinct row ids
and at most one primary wallet per user. -/
def walletListOk (l : List Wallet) : Prop :=
  l.Pairwise (fun a b => a.id ≠ b.id) ∧
    ∀ uid, l.countP (walletPrimaryPred uid) ≤ 1

lemma find?_wallet_id {l : List Wallet} {wid : Nat} {w0 : Wallet}
    (h : l.find? (fun w => decide (w.id = some wid)) = some w0) : w0.id = some wid := by
  have h2 := List.find?_some h
  exact of_decide_eq_true h2

lemma applyTxToWallet_id (sign : Int) (t : Transaction) (w : Wallet) :
    (applyTxToWallet sign t w).id = w.id := by
  unfold applyTxToWallet
  split <;> rfl

lemma applyTxToWallet_pred (uid : Nat) (sign : Int) (t : Transaction) (w : Wallet) :
    walletPrimaryPred uid (applyTxToWallet sign t w) = walletPrimaryPred uid w := by
  unfold applyTxToWallet
  split <;> rfl

lemma walletIds_map {l : List Wallet} {f : Wallet → Wallet}
    (hf : ∀ w, (f w).id = w.id) (h : l.Pairwise fun a b => a.id ≠ b.id) :
    (l.map f).Pairwise fun a b => a.id ≠ b.id := by
  rw [List.pairwise_map]
  exact h.imp fun hab => by simpa [hf] using hab

lemma countP_map_eq {l : List Wallet} {f : Wallet → Wallet} {p : Wallet → Bool}
    (hf : ∀ w ∈ l, p (f w) = p w) : (l.map f).countP p = l.countP p := by
  rw [List.countP_map]
  exact List.countP_congr fun a ha => by simp [Function.comp, hf a ha]

lemma walletListOk_map_tx {l : List Wallet} (sign : Int) (t : Transaction)
    (h : walletListOk l) : walletListOk (l.map (applyTxToWallet sign t)) :=
  ⟨walletIds_map (applyTxToWallet_id sign t) h.1, fun uid => by
    rw [countP_map_eq fun w _ => applyTxToWallet_pred uid sign t w]
    exact h.2 uid⟩

lemma deleteTransaction_walletListOk {s : Store} (tid : Nat)
    (h : walletListOk s.wallets) : walletListOk (deleteTransaction s tid).wallets := by
  unfold deleteTransaction
  split
  · exact h
  · exact walletListOk_map_tx _ _ h

lemma reachable_walletListOk {s : Store} (hr : Reachable s) : walletListOk s.wallets := by
  induction hr with
  | empty => exact ⟨List.Pairwise.nil, fun uid => by simp [Store.empty]⟩
  | user_create _ heq ih =>
    obtain ⟨rfl, -, -⟩ := createUser_ok heq
    exact ih
  | category_create _ ih => exact ih
  | @wallet_create s uid nid now p _ hfresh ih =>
    unfold createWallet
    split
    · next hp =>
      constructor
      · refine List.pairwise_cons.mpr ⟨?_, walletIds_map (fun v => by split <;> rfl) ih.1⟩
        intro v hv
        rcases List.mem_map.mp hv with ⟨a, ha, rfl⟩
        have hid : (if a.user_id = uid then { a with is_primary := false } else a).id = a.id := by
          split <;> rfl
        rw [hid]
        exact fun hcontra => hfresh a ha hcontra.symm
      · intro uid2
        by_cases huid : uid2 = uid
        · subst huid
          rw [List.countP_cons_of_pos _ _
            (by simp [walletPrimaryPred, mkWalletFromCreate, hp])]
          have hz : (s.wallets.map fun v =>
              if v.user_id = uid2 then { v with is_primary := false } else v).countP
                (walletPrimaryPred uid2) = 0 := by
            rw [List.countP_eq_zero]
            intro v hv
            rcases List.mem_map.mp hv with ⟨a, ha, rfl⟩
            by_cases ha2 : a.user_id = uid2 <;>
              simp [ha2, walletPrimaryPred]
          omega
        · rw [List.countP_cons_of_neg _ _
            (by simp [walletPrimaryPred, mkWalletFromCreate]
                exact fun h => absurd h.symm huid)]
          rw [countP_map_eq fun a ha => ?_]
          · exact ih.2 uid2
          · by_cases ha2 : a.user_id = uid
            · have hne : ¬(uid = uid2) := fun hx => huid hx.symm
              simp [ha2, walletPrimaryPred, hne]
            · simp [ha2, walletPrimaryPred]
    · next hp =>
      constructor
      · refine List.pairwise_cons.mpr ⟨?_, ih.1⟩
        intro v hv
        exact fun hcontra => hfresh v hv hcontra.symm
      · intro uid2
        rw [List.countP_cons_of_neg _ _
          (by simp [walletPrimaryPred, mkWalletFromCreate]
              intro _
              exact Bool.eq_false_iff.mpr hp)]
        exact ih.2 uid2
  | @wallet_update s wid now p _ ih =>
    unfold updateWallet
    split
    · exact ih
    · next w0 hfind =>
      have hw0mem : w0 ∈ s.wallets := List.mem_of_find?_eq_some hfind
      have hw0id : w0.id = some wid := find?_wallet_id hfind
      split
      · next hps =>
        constructor
        · refine walletIds_map (fun v => ?_) ih.1
          split
          · rfl
          · split <;> rfl
        · intro uid2
          rw [List.countP_map]
          by_cases huid : uid2 = w0.user_id
          · subst huid
            calc s.wallets.countP (walletPrimaryPred w0.user_id ∘ fun v =>
                  if v.id = some wid then applyWalletUpdate v p now
                  else if v.user_id = w0.user_id then { v with is_primary := false } else v)
                ≤ s.wallets.countP (fun v => decide (v.id = some wid)) := by
                  refine List.countP_mono_left fun v hv hpred => ?_
                  by_cases hid : v.id = some wid
                  · simp [hid]
                  · exfalso
                    revert hpred
                    by_cases huser : v.user_id = w0.user_id <;>
                      simp [Function.comp, hid, huser, walletPrimaryPred]
              _ ≤ 1 := countP_key_le_one (fun w : Wallet => w.id) s.wallets ih.1 (some wid)
          · rw [List.countP_congr fun v hv => ?_]
            · exact ih.2 uid2
            · show (walletPrimaryPred uid2 (if v.id = some wid then applyWalletUpdate v p now
                else if v.user_id = w0.user_id then { v with is_primary := false } else v))
                  = true ↔ walletPrimaryPred uid2 v = true
              have hw0ne : ¬(w0.user_id = uid2) := fun hx => huid hx.symm
              by_cases hid : v.id = some wid
              · have hvw0 : v = w0 :=
                  eq_of_pairwise_key (fun w : Wallet => w.id) ih.1 hv hw0mem
                    (hid.trans hw0id.symm)
                rw [if_pos hid, hvw0]
                simp [walletPrimaryPred, applyWalletUpdate, hw0ne]
              · by_cases huser : v.user_id = w0.user_id
                · simp [hid, huser, walletPrimaryPred, hw0ne]
                · simp [hid, huser]
      · next hps =>
        constructor
        · refine walletIds_map (fun v => ?_) ih.1
          split <;> rfl
        · intro uid2
          rw [List.countP_map]
          refine le_trans (List.countP_mono_left fun v hv hpred => ?_) (ih.2 uid2)
          revert hpred
          by_cases hid : v.id = some wid
          · cases hpi : p.is_primary with
            | none => simp [Function.comp, hid, walletPrimaryPred, applyWalletUpdate, hpi]
            | some b =>
              cases b
              · simp [Function.comp, hid, walletPrimaryPred, applyWalletUpdate, hpi]
              · exact absurd hpi hps
          · simp [Function.comp, hid]
  | budget_create _ heq ih =>
    obtain ⟨rfl, -⟩ := createBudget_ok heq
    exact ih
  | budget_update _ ih => exact ih
  | tx_create _ ih => exact walletListOk_map_tx _ _ ih
  | tx_update _ ih =>
    unfold updateTransaction
    split
    · exact ih
    · exact walletListOk_map_tx _ _ (deleteTransaction_walletListOk _ ih)
  | tx_delete _ ih => exact deleteTransaction_walletListOk _ ih

/- C5 helpers: income Transactions and Transactions with no matching
Budget never change the stored budgets. -/

lemma applyTxToBudget_income {t : Transaction} (ht : t.type = .income)
    (sign : Int) (b : Budget) : applyTxToBudget sign t b = b := by
  unfold applyTxToBudget
  rw [if_neg]
  rintro ⟨h1, -⟩
  rw [ht] at h1
  cases h1

lemma applyTxToBudget_nomatch {t : Transaction} {b : Budget}
    (h : budgetMatches b t = false) (sign : Int) : applyTxToBudget sign t b = b := by
  unfold applyTxToBudget
  rw [if_neg]
  rintro ⟨-, h2⟩
  rw [h] at h2
  cases h2

lemma map_applyTxToBudget_income {l : List Budget} {t : Transaction}
    (ht : t.type = .income) (sign : Int) : l.map (applyTxToBudget sign t) = l := by
  rw [List.map_congr_left fun b _ => applyTxToBudget_income ht sign b]
  exact List.map_id' l

lemma find?_tx_id {l : List Transaction} {tid : Nat} {t : Transaction}
    (h : l.find? (fun u => decide (u.id = some tid)) = some t) : t.id = some tid := by
  have h2 := List.find?_some h
  exact of_decide_eq_true h2

lemma createTransaction_budgets_income {s : Store} {t : Transaction}
    (ht : t.type = .income) : (createTransaction s t).budgets = s.budgets :=
  map_applyTxToBudget_income ht 1

lemma deleteTransaction_budgets_income {s : Store} {tid : Nat}
    (h : ∀ u ∈ s.transactions, u.id = some tid → u.type = .income) :
    (deleteTransaction s tid).budgets = s.budgets := by
  unfold deleteTransaction
  split
  · rfl
  · next t hfind =>
    exact map_applyTxToBudget_income
      (h t (List.mem_of_find?_eq_some hfind) (find?_tx_id hfind)) (-1)

lemma updateTransaction_budgets_income {s : Store} {tid : Nat} {now : DateTime}
    {p : TransactionUpdate}
    (h : ∀ u ∈ s.transactions, u.id = some tid → u.type = .income) :
    (updateTransaction s tid now p).budgets = s.budgets := by
  unfold updateTransaction
  split
  · rfl
  · next t hfind =>
    have ht : t.type = .income := h t (List.mem_of_find?_eq_some hfind) (find?_tx_id hfind)
    have ht2 : (applyTransactionUpdate t p now).type = .income := ht
    calc (createTransaction (deleteTransaction s tid) (applyTransactionUpdate t p now)).budgets
        = (deleteTransaction s tid).budgets := createTransaction_budgets_income ht2
      _ = s.budgets := deleteTransaction_budgets_income h

lemma createTransaction_budgets_nomatch {s : Store} {t : Transaction}
    (h : ∀ b ∈ s.budgets, budgetMatches b t = false) :
    (createTransaction s t).budgets = s.budgets := by
  show s.budgets.map (applyTxToBudget 1 t) = s.budgets
  rw [List.map_congr_left fun b hb => applyTxToBudget_nomatch (h b hb) 1]
  exact List.map_id' s.budgets

/- The §8 scenario (C2), run through the modelled operations with amounts
in cents: allocated 500.00 = 50000, expense 120.50 = 12050, updated amount
200.00 = 20000. -/

/-- Scenario fixture date (store-creation timestamp). -/
def scnD0 : DateTime := ⟨2024, 5, 1⟩

/-- Scenario transaction date, inside May 2024. -/
def scnTxDate : DateTime := ⟨2024, 5, 15⟩

/-- Scenario user U. -/
def scnUser : User :=
  ⟨some 1, "udin", "udin@example.com", "Udin", "hash", .user, true, scnD0, scnD0⟩

/-- Scenario expense category C. -/
def scnCategory : Category :=
  ⟨some 2, "Food", none, .expense, none, none, true, scnD0, some 1⟩

/-- Scenario wallet W with balance 0. -/
def scnWallet : Wallet := ⟨some 3, 1, "Cash", 0, false, scnD0, scnD0⟩

/-- Scenario base store: U, C and W persisted, no budgets, no
transactions. -/
def scnBase : Store := ⟨[scnUser], [scnCategory], [scnWallet], [], []⟩

/-- Scenario budget payload: category C, month 5, year 2024, allocated
500.00. -/
def scnBudgetCreate : BudgetCreate := ⟨2, "Food May", 50000, 5, 2024⟩

/-- Store after creating budget B. -/
def scnStoreB : Store :=
  (createBudget scnBase 1 4 scnD0 scnBudgetCreate).toOption.getD Store.empty

/-- Scenario transaction payload T1: expense, category C, wallet W, amount
120.50, dated in May 2024. -/
def scnTxCreate : TransactionCreate :=
  ⟨2, 3, .expense, 12050, "groceries", none, some scnTxDate⟩

/-- Store after creating T1 (row id 5). -/
def scnStore1 : Store :=
  createTransaction scnStoreB (mkTransactionFromCreate 1 5 scnD0 scnTxCreate)

/-- Scenario update payload: T1.amount := 200.00. -/
def scnTxUpdate : TransactionUpdate := ⟨none, none, some 20000, none, none, none⟩

/-- Store after updating T1. -/
def scnStore2 : Store := updateTransaction scnStore1 5 scnD0 scnTxUpdate

/-- Store after deleting T1. -/
def scnStore3 : Store := deleteTransaction scnStore2 5

/-- C5 fixture: a stored income transaction (row id 7). -/
def scnC5StoredIncome : Transaction :=
  ⟨some 7, 1, 2, 3, .income, 9900, "salary", none, scnTxDate, scnD0, scnD0⟩

/-- C5 fixture: a store holding budget B, wallet W and one stored income
transaction. -/
def scnC5Store : Store :=
  ⟨[scnUser], [scnCategory], [scnWallet],
    [mkBudgetFromCreate 1 4 scnD0 scnBudgetCreate], [scnC5StoredIncome]⟩

/-- C5 fixture: an income transaction to create. -/
def scnC5Income : Transaction :=
  ⟨some 8, 1, 2, 3, .income, 5000, "gift", none, scnTxDate, scnD0, scnD0⟩

/-- C5 fixture: an expense transaction dated June 2024, matched by no
stored budget. -/
def scnC5NoMatch : Transaction :=
  ⟨some 9, 1, 2, 3, .expense, 1000, "late", none, ⟨2024, 6, 2⟩, scnD0, scnD0⟩

/-- C2/C5 fixture: the scenario user-creation payload. -/
def scnUserCreate : UserCreate := ⟨"udin", "udin@example.com", "Udin", "password1", .user⟩

/-- The all-absent `UserUpdate` payload. -/
def UserUpdate.empty : UserUpdate := ⟨none, none, none, none, none⟩

/-- The all-absent `CategoryUpdate` payload. -/
def CategoryUpdate.empty : CategoryUpdate := ⟨none, none, none, none, none⟩

/-- The all-absent `WalletUpdate` payload. -/
def WalletUpdate.empty : WalletUpdate := ⟨none, none, none⟩

/-- The all-absent `BudgetUpdate` payload. -/
def BudgetUpdate.empty : BudgetUpdate := ⟨none, none, none⟩

/-- The all-absent `TransactionUpdate` payload. -/
def TransactionUpdate.empty : TransactionUpdate := ⟨none, none, none, none, none, none⟩

/-- The all-absent `InvestmentUpdate` payload. -/
def InvestmentUpdate.empty : InvestmentUpdate := ⟨none, none, none, none, none, none⟩

/-- C1: for every Budget, at every reachable state of the store,
`remaining_amount = allocated_amount − spent_amount`; and a Budget freshly
created from a `BudgetCreate` payload has `spent_amount = 0` and already
satisfies the invariant. -/
theorem claim_C1 :
    (∀ s : Store, Reachable s → ∀ b ∈ s.budgets,
      b.remaining_amount = b.allocated_amount - b.spent_amount) ∧
    (∀ (uid nid : Nat) (now : DateTime) (p : BudgetCreate),
      (mkBudgetFromCreate uid nid now p).spent_amount = 0 ∧
      (mkBudgetFromCreate uid nid now p).remaining_amount =
        (mkBudgetFromCreate uid nid now p).allocated_amount -
          (mkBudgetFromCreate uid nid now p).spent_amount) := by
  constructor
  · exact fun s hr => reachable_budgetInv hr
  · exact fun uid nid now p => ⟨rfl, budgetInv_mkBudgetFromCreate ..⟩

/-- Witness for C1: a concrete reachable one-budget store satisfies the
invariant at its budget. -/
theorem claim_C1_witness :
    (mkBudgetFromCreate 1 1 scnD0 scnBudgetCreate).remaining_amount =
      (mkBudgetFromCreate 1 1 scnD0 scnBudgetCreate).allocated_amount -
        (mkBudgetFromCreate 1 1 scnD0 scnBudgetCreate).spent_amount :=
  claim_C1.1 ⟨[], [], [], [mkBudgetFromCreate 1 1 scnD0 scnBudgetCreate], []⟩
    (@Reachable.budget_create Store.empty 1 1 scnD0 scnBudgetCreate
      ⟨[], [], [], [mkBudgetFromCreate 1 1 scnD0 scnBudgetCreate], []⟩
      Reachable.empty rfl)
    (mkBudgetFromCreate 1 1 scnD0 scnBudgetCreate) (by simp)

/-- C2: the §8 scenario.  From a store holding user U, expense category C,
wallet W (balance 0) and budget B (category C, May 2024, allocated
500.00): creating expense transaction T1 of 120.50 dated in May 2024
yields spent 120.50, remaining 379.50 and balance −120.50; updating
T1.amount to 200.00 yields spent 200.00 and balance −200.00; deleting T1
yields spent 0, remaining 500.00 and balance 0, restoring exactly the
pre-transaction store (delete is the inverse of create). -/
theorem claim_C2 :
    createBudget scnBase 1 4 scnD0 scnBudgetCreate = .ok scnStoreB ∧
    scnStoreB.budgets.map (fun b => (b.spent_amount, b.remaining_amount)) = [(0, 50000)] ∧
    scnStore1.budgets.map (fun b => (b.spent_amount, b.remaining_amount)) =
      [(12050, 37950)] ∧
    scnStore1.wallets.map (fun w => w.balance) = [-12050] ∧
    scnStore2.budgets.map (fun b => (b.spent_amount, b.remaining_amount)) =
      [(20000, 30000)] ∧
    scnStore2.wallets.map (fun w => w.balance) = [-20000] ∧
    scnStore3.budgets.map (fun b => (b.spent_amount, b.remaining_amount)) = [(0, 50000)] ∧
    scnStore3.wallets.map (fun w => w.balance) = [0] ∧
    scnStore3 = scnStoreB :=
  ⟨rfl, rfl, rfl, rfl, rfl, rfl, rfl, rfl, rfl⟩

/-- C3 counterexample: the declared field constraints of
`TransactionCreate` (models.py line 251: `decimal_places=2` only) accept a
payload whose amount is −1.00; no `amount > 0` bound exists, so the
Validation Layer does not reject `amount ≤ 0`. -/
theorem claim_C3_cex :
    transactionCreateValid ⟨1, 1, .expense, -100, "neg", none, none⟩ = true ∧
    (⟨1, 1, .expense, -100, "neg", none, none⟩ : TransactionCreate).amount ≤ 0 := by
  constructor
  · decide
  · decide

/-- C3 amended: `amount` carries no declared constraint beyond its 2-place
decimal representation - the `TransactionCreate` validation result is
independent of `amount`, so nonpositive amounts pass validation - and the
transaction `type` (income/expense) is the sole determinant of the sign of
the wallet posting. -/
theorem claim_C3_amended :
    (∀ (p : TransactionCreate) (a : Money),
      transactionCreateValid { p with amount := a } = transactionCreateValid p) ∧
    (∀ t : Transaction,
      txWalletDelta t = if t.type = .income then t.amount else -t.amount) := by
  constructor
  · intro p a
    rfl
  · intro t
    cases h : t.type <;> simp [txWalletDelta, h]

/-- C4: at every reachable state the (user_id, category_id, month, year)
tuples of distinct Budgets differ, and creating a Budget whose tuple is
already taken is rejected with a ConflictError rather than persisted. -/
theorem claim_C4 :
    (∀ s : Store, Reachable s →
      s.budgets.Pairwise fun a b => budgetScope a ≠ budgetScope b) ∧
    (∀ (s : Store) (uid nid : Nat) (now : DateTime) (p : BudgetCreate),
      (∃ b ∈ s.budgets, budgetScopeEq b uid p.category_id p.month p.year = true) →
      createBudget s uid nid now p = .error .conflict) := by
  constructor
  · exact fun s hr => reachable_scopesOk hr
  · rintro s uid nid now p ⟨b, hb, hscope⟩
    unfold createBudget
    rw [if_pos]
    exact List.any_eq_true.mpr ⟨b, hb, hscope⟩

/-- Witness for C4: a concrete reachable one-budget store has pairwise
distinct scopes, and re-creating the same (user, category, month, year)
scope returns a ConflictError. -/
theorem claim_C4_witness :
    (⟨[], [], [], [mkBudgetFromCreate 1 1 scnD0 scnBudgetCreate], []⟩ :
        Store).budgets.Pairwise (fun a b => budgetScope a ≠ budgetScope b) ∧
    createBudget ⟨[], [], [], [mkBudgetFromCreate 1 1 scnD0 scnBudgetCreate], []⟩
      1 9 scnD0 scnBudgetCreate = .error .conflict :=
  ⟨claim_C4.1 ⟨[], [], [], [mkBudgetFromCreate 1 1 scnD0 scnBudgetCreate], []⟩
      (@Reachable.budget_create Store.empty 1 1 scnD0 scnBudgetCreate
        ⟨[], [], [], [mkBudgetFromCreate 1 1 scnD0 scnBudgetCreate], []⟩
        Reachable.empty rfl),
    claim_C4.2 ⟨[], [], [], [mkBudgetFromCreate 1 1 scnD0 scnBudgetCreate], []⟩
      1 9 scnD0 scnBudgetCreate
      ⟨mkBudgetFromCreate 1 1 scnD0 scnBudgetCreate, by simp, by decide⟩⟩

/-- C5: creating an income Transaction, and deleting or updating a stored
income Transaction, leave the stored budgets (hence every
`spent_amount`/`remaining_amount`) unchanged; and a Transaction matched by
no Budget leaves the budgets unchanged while its Wallet posting still
happens. -/
theorem claim_C5 (s : Store) (t t2 : Transaction) (tid : Nat) (now : DateTime)
    (p : TransactionUpdate)
    (hinc : t.type = .income)
    (hstored : ∀ u ∈ s.transactions, u.id = some tid → u.type = .income)
    (hnm : ∀ b ∈ s.budgets, budgetMatches b t2 = false) :
    (createTransaction s t).budgets = s.budgets ∧
    (deleteTransaction s tid).budgets = s.budgets ∧
    (updateTransaction s tid now p).budgets = s.budgets ∧
    (createTransaction s t2).budgets = s.budgets ∧
    (createTransaction s t2).wallets = s.wallets.map (applyTxToWallet 1 t2) ∧
    (∀ w ∈ s.wallets, w.id = some t2.wallet_id →
      (applyTxToWallet 1 t2 w).balance = w.balance + txWalletDelta t2) := by
  refine ⟨createTransaction_budgets_income hinc,
    deleteTransaction_budgets_income hstored,
    updateTransaction_budgets_income hstored,
    createTransaction_budgets_nomatch hnm, rfl, ?_⟩
  intro w _ hw
  unfold applyTxToWallet
  rw [if_pos hw]
  simp

/-- Witness for C5: a concrete store with one active May-2024 budget, an
income transaction and an expense transaction dated outside the budget's
scope. -/
theorem claim_C5_witness :
    (createTransaction scnC5Store scnC5Income).budgets = scnC5Store.budgets ∧
    (deleteTransaction scnC5Store 7).budgets = scnC5Store.budgets ∧
    (updateTransaction scnC5Store 7 scnD0 scnTxUpdate).budgets = scnC5Store.budgets ∧
    (createTransaction scnC5Store scnC5NoMatch).budgets = scnC5Store.budgets ∧
    (createTransaction scnC5Store scnC5NoMatch).wallets =
      scnC5Store.wallets.map (applyTxToWallet 1 scnC5NoMatch) ∧
    (∀ w ∈ scnC5Store.wallets, w.id = some scnC5NoMatch.wallet_id →
      (applyTxToWallet 1 scnC5NoMatch w).balance =
        w.balance + txWalletDelta scnC5NoMatch) :=
  claim_C5 scnC5Store scnC5Income scnC5NoMatch 7 scnD0 scnTxUpdate
    (by decide) (by decide) (by decide)

/-- C6: at every reachable state, each user has at most one primary
wallet; the `WalletCreate` and `WalletUpdate` write paths (the only
operations that set `is_primary`) preserve this. -/
theorem claim_C6 :
    ∀ s : Store, Reachable s → ∀ uid : Nat,
      s.wallets.countP (walletPrimaryPred uid) ≤ 1 :=
  fun _ hr => (reachable_walletListOk hr).2

/-- Witness for C6: the store reached by creating one primary wallet for
user 1 has at most one primary wallet for user 1. -/
theorem claim_C6_witness :
    (createWallet Store.empty 1 1 scnD0 ⟨"w", 0, true⟩).wallets.countP
      (walletPrimaryPred 1) ≤ 1 :=
  claim_C6 (createWallet Store.empty 1 1 scnD0 ⟨"w", 0, true⟩)
    (Reachable.wallet_create Reachable.empty (by simp [Store.empty])) 1

/-- C7: every Update payload's fields are all optional, and applying an
update leaves each stored field at `payload-field.getD stored-field`: an
absent (`none`) field never overwrites the stored value; in particular the
all-absent update is the identity on every stored field (`updated_at`, a
row timestamp, excepted), and for the nullable `notes` column an update
that explicitly carries null (`some none`) sets the stored value to null
whereas an absent (`none`) field leaves it unchanged. -/
theorem claim_C7 :
    (∀ (u : User) (p : UserUpdate) (now : DateTime),
      applyUserUpdate u p now =
        { u with
          username := p.username.getD u.username
          email := p.email.getD u.email
          full_name := p.full_name.getD u.full_name
          role := p.role.getD u.role
          is_active := p.is_active.getD u.is_active
          updated_at := now }) ∧
    (∀ (c : Category) (p : CategoryUpdate),
      applyCategoryUpdate c p =
        { c with
          name := p.name.getD c.name
          description := p.description.getD c.description
          color := p.color.getD c.color
          icon := p.icon.getD c.icon
          is_active := p.is_active.getD c.is_active }) ∧
    (∀ (w : Wallet) (p : WalletUpdate) (now : DateTime),
      applyWalletUpdate w p now =
        { w with
          name := p.name.getD w.name
          balance := p.balance.getD w.balance
          is_primary := p.is_primary.getD w.is_primary
          updated_at := now }) ∧
    (∀ (b : Budget) (p : BudgetUpdate) (now : DateTime),
      (applyBudgetUpdate b p now).name = p.name.getD b.name ∧
      (applyBudgetUpdate b p now).is_active = p.is_active.getD b.is_active ∧
      (applyBudgetUpdate b p now).allocated_amount =
        p.allocated_amount.getD b.allocated_amount) ∧
    (∀ (t : Transaction) (p : TransactionUpdate) (now : DateTime),
      applyTransactionUpdate t p now =
        { t with
          category_id := p.category_id.getD t.category_id
          wallet_id := p.wallet_id.getD t.wallet_id
          amount := p.amount.getD t.amount
          description := p.description.getD t.description
          notes := p.notes.getD t.notes
          transaction_date := p.transaction_date.getD t.transaction_date
          updated_at := now }) ∧
    (∀ (v : Investment) (p : InvestmentUpdate) (now : DateTime),
      applyInvestmentUpdate v p now =
        { v with
          name := p.name.getD v.name
          current_value := p.current_value.getD v.current_value
          monthly_contribution := p.monthly_contribution.getD v.monthly_contribution
          expected_return_rate := p.expected_return_rate.getD v.expected_return_rate
          description := p.description.getD v.description
          is_active := p.is_active.getD v.is_active
          updated_at := now }) ∧
    (∀ (u : User) (now : DateTime),
      applyUserUpdate u UserUpdate.empty now = { u with updated_at := now }) ∧
    (∀ c : Category, applyCategoryUpdate c CategoryUpdate.empty = c) ∧
    (∀ (w : Wallet) (now : DateTime),
      applyWalletUpdate w WalletUpdate.empty now = { w with updated_at := now }) ∧
    (∀ (b : Budget) (now : DateTime),
      applyBudgetUpdate b BudgetUpdate.empty now = { b with updated_at := now }) ∧
    (∀ (t : Transaction) (now : DateTime),
      applyTransactionUpdate t TransactionUpdate.empty now = { t with updated_at := now }) ∧
    (∀ (v : Investment) (now : DateTime),
      applyInvestmentUpdate v InvestmentUpdate.empty now = { v with updated_at := now }) ∧
    (∀ (t : Transaction) (now : DateTime),
      (applyTransactionUpdate t { TransactionUpdate.empty with notes := some none }
        now).notes = none ∧
      (applyTransactionUpdate t TransactionUpdate.empty now).notes = t.notes) := by
  refine ⟨fun u p now => rfl, fun c p => rfl, fun w p now => rfl, fun b p now => ?_,
    fun t p now => rfl, fun v p now => rfl, fun u now => rfl, fun c => rfl,
    fun w now => rfl, fun b now => rfl, fun t now => rfl, fun v now => rfl,
    fun t now => ⟨rfl, rfl⟩⟩
  cases hp : p.allocated_amount <;> simp [applyBudgetUpdate, hp]

/-- C8 counterexample: the declared field constraints of `UserCreate`
(models.py lines 184-189) contain no email-format rule, so a payload whose
email is not in email format still passes payload validation. -/
theorem claim_C8_cex :
    userCreateValid ⟨"udin", "not-an-email", "Udin", "password1", .user⟩ = true ∧
    emailOk "not-an-email" = false := by
  constructor
  · decide
  · decide

/-- C8 amended: the email-format regex is declared on the persisted `User`
row (models.py line 40), not on the `UserCreate` payload: every valid
persisted User email matches the format - in particular every user in a
reachable store does - while the minimum-password-length rule (≥ 8) is a
`UserCreate`-only rule (UserUpdate carries no password field, so updates
never touch `password_hash`). -/
theorem claim_C8_amended :
    (∀ u : User, userRowValid u = true → emailOk u.email = true) ∧
    (∀ s : Store, Reachable s → ∀ u ∈ s.users, emailOk u.email = true) ∧
    (∀ p : UserCreate, userCreateValid p = true → 8 ≤ p.password.length) ∧
    (∀ (u : User) (p : UserUpdate) (now : DateTime),
      (applyUserUpdate u p now).password_hash = u.password_hash) := by
  refine ⟨fun u h => emailOk_of_userRowValid h, fun s hr => reachable_emailOk hr,
    fun p h => ?_, fun u p now => rfl⟩
  unfold userCreateValid at h
  simp only [Bool.and_eq_true, decide_eq_true_eq] at h
  exact h.2

/-- Witness for C8 amended: a concrete valid user row, the store reached
by persisting it, and a concrete valid create payload. -/
theorem claim_C8_amended_witness :
    emailOk scnUser.email = true ∧
    emailOk (mkUserFromCreate 1 scnD0 scnUserCreate "hash").email = true ∧
    8 ≤ scnUserCreate.password.length ∧
    (applyUserUpdate scnUser UserUpdate.empty scnD0).password_hash =
      scnUser.password_hash :=
  ⟨claim_C8_amended.1 scnUser (by decide),
    claim_C8_amended.2.1
      ⟨[mkUserFromCreate 1 scnD0 scnUserCreate "hash"], [], [], [], []⟩
      (@Reachable.user_create Store.empty 1 scnD0 scnUserCreate "hash"
        ⟨[mkUserFromCreate 1 scnD0 scnUserCreate "hash"], [], [], [], []⟩
        Reachable.empty rfl)
      (mkUserFromCreate 1 scnD0 scnUserCreate "hash") (by simp),
    claim_C8_amended.2.2.1 scnUserCreate (by decide),
    claim_C8_amended.2.2.2 scnUser UserUpdate.empty scnD0⟩

/-- C9: no `BudgetCreate` or `BudgetUpdate` payload can set `spent_amount`
or `remaining_amount`: a freshly created Budget has `spent_amount = 0` and
`remaining_amount = allocated_amount − 0` regardless of the payload, and a
Budget update leaves `spent_amount` unchanged and sets `remaining_amount`
only through the engine's recomputation `allocated_amount −
spent_amount` (exactly when `allocated_amount` is in the payload). -/
theorem claim_C9 :
    (∀ (uid nid : Nat) (now : DateTime) (p : BudgetCreate),
      (mkBudgetFromCreate uid nid now p).spent_amount = 0 ∧
      (mkBudgetFromCreate uid nid now p).remaining_amount =
        (mkBudgetFromCreate uid nid now p).allocated_amount - 0) ∧
    (∀ (b : Budget) (p : BudgetUpdate) (now : DateTime),
      (applyBudgetUpdate b p now).spent_amount = b.spent_amount ∧
      (applyBudgetUpdate b p now).remaining_amount =
        (match p.allocated_amount with
         | none => b.remaining_amount
         | some a => a - b.spent_amount)) := by
  refine ⟨fun uid nid now p => ⟨rfl, rfl⟩, fun b p now => ?_⟩
  cases hp : p.allocated_amount <;> simp [applyBudgetUpdate, hp]

/-- C10: neither `TransactionUpdate` nor `CategoryUpdate` exposes a `type`
field, so applying any update leaves the entity's income/expense type
unchanged. -/
theorem claim_C10 :
    (∀ (t : Transaction) (p : TransactionUpdate) (now : DateTime),
      (applyTransactionUpdate t p now).type = t.type) ∧
    (∀ (c : Category) (p : CategoryUpdate), (applyCategoryUpdate c p).type = c.type) :=
  ⟨fun _ _ _ => rfl, fun _ _ => rfl⟩

end App
